import Mathlib

/-!
Shallow embedding of the LinkedConnect Campaign Engine
(src/linkedin_campaign_sync.py and src/config.py).

Python dictionaries with a fixed key set are embedded as structures whose
fields are Option-valued where the source reads them with .get (a missing
key yields None).  Side-effecting client calls are embedded as a trace:
process_person and run_cycle return the ordered list of downstream calls
they perform, and the five clients are a record of pure functions, exactly
the operations the source invokes on the clients dict.
-/

/-- A raw engagement record produced by the Phantombuster feed
(a Python dict with keys first_name, last_name, profile_url, each of
which the source reads with .get, so each may be absent). -/
structure Person where
  first_name : Option String
  last_name : Option String
  profile_url : Option String
deriving DecidableEq, Repr

/-- The enrichment result (a Python dict).  The email field models the
key "email": absent (None), or a list of entries, each entry being a dict
whose key "email" may itself be absent; entry = some s means the entry
maps "email" to the string s. -/
structure Enriched where
  full_name : Option String
  first_name : Option String
  last_name : Option String
  email : Option (List (Option String))
  phone : Option String
  linkedin : Option String
  company : Option String
  website : Option String
deriving DecidableEq, Repr

/-- The empty dict returned by DropcontactClient.enrich in real mode:
every .get on it yields None. -/
def emptyEnriched : Enriched :=
  { full_name := none, first_name := none, last_name := none, email := none,
    phone := none, linkedin := none, company := none, website := none }

/-- An Airtable record as returned by the store: a dict with keys id and
fields. -/
structure StoreRecord where
  id : String
  fields : List (String × Option String)
deriving DecidableEq, Repr

/-- A Python dict of fields, in insertion order, as built by
process_person; values are Option String since the source inserts results
of .get calls (possibly None) next to plain strings. -/
abbrev FieldSet := List (String × Option String)

/-- Line 155 of linkedin_campaign_sync.py: the conditional expression
reading the first entry of the enriched email list with .get.
When the email key is absent or the list is empty the condition is falsy
and the result is None; otherwise the first entry is read with .get, so a
missing email key in that entry also yields None. -/
def extract_email (e : Enriched) : Option String :=
  match e.email with
  | none => none
  | some [] => none
  | some (entry :: _) => entry

/-- Lines 155 and 158: the extracted email followed by the Python
truthiness test "if not email" — both None and the empty string are
falsy, so the record is skipped in either case.  resolvedEmail e is
some email exactly when process_person proceeds past line 160. -/
def resolvedEmail (e : Enriched) : Option String :=
  match extract_email e with
  | none => none
  | some s => if s = "" then none else some s

/-- The update field set built on lines 165-171 (insertion order of the
source dict literal). -/
def updateFields (e : Enriched) (email : String) : FieldSet :=
  [("Email", some email),
   ("Phone", e.phone),
   ("LinkedIn", e.linkedin),
   ("Account", e.company),
   ("Company website", e.website)]

/-- The create field set built on lines 174-181 (insertion order of the
source dict literal). -/
def createFields (e : Enriched) (email : String) : FieldSet :=
  [("Name", e.full_name),
   ("Account", e.company),
   ("Company website", e.website),
   ("Email", some email),
   ("Phone", e.phone),
   ("LinkedIn", e.linkedin)]

/-- The Lemlist lead dict built on lines 185-190. -/
def leadFields (e : Enriched) (email : String) : FieldSet :=
  [("email", some email),
   ("firstName", e.first_name),
   ("lastName", e.last_name),
   ("companyName", e.company)]

/-- The HubSpot contact dict built on lines 193-199. -/
def contactFields (e : Enriched) (email : String) : FieldSet :=
  [("email", some email),
   ("firstName", e.first_name),
   ("lastName", e.last_name),
   ("company", e.company),
   ("phone", e.phone)]

/-- One downstream client call made by process_person, with its
arguments. -/
inductive Call where
  | list_records_matching_email (email : String)
  | create_record (fields : FieldSet)
  | update_record (record_id : String) (fields : FieldSet)
  | add_lead (lead : FieldSet)
  | upsert_contact (contact : FieldSet)
deriving DecidableEq, Repr

/-- The clients dict handed to process_person: the operations the source
invokes on it.  The store, Lemlist and HubSpot calls also return values;
the source never binds those results, and processPerson below indeed
never consults the last four fields. -/
structure Clients where
  enrich : Person → Enriched
  list_records_matching_email : String → List StoreRecord
  create_record : FieldSet → StoreRecord
  update_record : String → FieldSet → StoreRecord
  add_lead : FieldSet → Bool
  upsert_contact : FieldSet → Bool

/-- Lines 162-182: the Airtable search followed by the update branch
(non-empty result: first match, lines 163-172) or the create branch
(lines 173-182). -/
def storeCalls (lookup : String → List StoreRecord) (e : Enriched)
    (email : String) : List Call :=
  match lookup email with
  | [] =>
      [Call.list_records_matching_email email,
       Call.create_record (createFields e email)]
  | r :: _ =>
      [Call.list_records_matching_email email,
       Call.update_record r.id (updateFields e email)]

/-- Lines 154-199 after enrichment: skip when the email is falsy
(lines 158-160), otherwise the store phase then the unconditional
Lemlist add_lead and HubSpot upsert_contact calls. -/
def processEnriched (lookup : String → List StoreRecord)
    (e : Enriched) : List Call :=
  match resolvedEmail e with
  | none => []
  | some email =>
      storeCalls lookup e email
        ++ [Call.add_lead (leadFields e email),
            Call.upsert_contact (contactFields e email)]

/-- process_person (lines 148-199) as a trace of the downstream calls it
performs, in order. -/
def processPerson (cl : Clients) (p : Person) : List Call :=
  processEnriched cl.list_records_matching_email (cl.enrich p)

/-- Is this call a create_record call. -/
def isCreate : Call → Bool
  | Call.create_record _ => true
  | _ => false

/-- Is this call an update_record call. -/
def isUpdate : Call → Bool
  | Call.update_record _ _ => true
  | _ => false

/-- Is this call an add_lead call. -/
def isAddLead : Call → Bool
  | Call.add_lead _ => true
  | _ => false

/-- Is this call an upsert_contact call. -/
def isUpsert : Call → Bool
  | Call.upsert_contact _ => true
  | _ => false

/-- Number of create_record calls in a trace. -/
def countCreate (t : List Call) : Nat := t.countP isCreate

/-- Number of update_record calls in a trace. -/
def countUpdate (t : List Call) : Nat := t.countP isUpdate

/-- Number of add_lead calls in a trace. -/
def countAddLead (t : List Call) : Nat := t.countP isAddLead

/-- Number of upsert_contact calls in a trace. -/
def countUpsert (t : List Call) : Nat := t.countP isUpsert

/-- Lookup of a key in a field dict: some v when the key is present with
value v, none when the key is absent. -/
def getField (fs : FieldSet) (k : String) : Option (Option String) :=
  match fs with
  | [] => none
  | (k2, v) :: rest => if k2 = k then some v else getField rest k

/-- The keys of a field dict, in insertion order. -/
def fieldKeys (fs : FieldSet) : List String := fs.map Prod.fst

/-- Is the first list a prefix of the second (char lists compared with
==). -/
def charPref : List Char → List Char → Bool
  | [], _ => true
  | _ :: _, [] => false
  | a :: ns, b :: hs => a == b && charPref ns hs

/-- Does the first list occur as a contiguous segment of the second. -/
def charSub (n : List Char) : List Char → Bool
  | [] => charPref n []
  | c :: hs => charPref n (c :: hs) || charSub n hs

/-- The Python test needle in hay on strings. -/
def strIn (needle hay : String) : Bool := charSub needle.data hay.data

/-!
Embedding of src/config.py and of the five client classes of
src/linkedin_campaign_sync.py.  An environment is a partial map from
variable names to strings; os.getenv with a default is .getD.
-/

/-- The Config dataclass of src/config.py. -/
structure Config where
  PHANTOMBUSTER_API_KEY : String
  DROPCONTACT_API_KEY : String
  AIRTABLE_API_KEY : String
  AIRTABLE_BASE_ID : String
  AIRTABLE_TABLE : String
  LEMLIST_API_KEY : String
  HUBSPOT_API_KEY : String
  mock : Bool
deriving DecidableEq, Repr

/-- os.getenv name default: the variable value when set, the default
otherwise. -/
def getenvD (env : String → Option String) (name default : String) : String :=
  (env name).getD default

/-- Config.load_from_env (src/config.py lines 29-52): read the seven
variables, then mock = not (ph and dc and at and at_base and le and hs),
where Python truthiness of a string is non-emptiness.  Note
AIRTABLE_TABLE does not take part in the mock decision. -/
def load_from_env (env : String → Option String) : Config :=
  let ph := getenvD env "PHANTOMBUSTER_API_KEY" ""
  let dc := getenvD env "DROPCONTACT_API_KEY" ""
  let at_key := getenvD env "AIRTABLE_API_KEY" ""
  let at_base := getenvD env "AIRTABLE_BASE_ID" ""
  let at_table := getenvD env "AIRTABLE_TABLE" "Contacts"
  let le := getenvD env "LEMLIST_API_KEY" ""
  let hs := getenvD env "HUBSPOT_API_KEY" ""
  { PHANTOMBUSTER_API_KEY := ph
    DROPCONTACT_API_KEY := dc
    AIRTABLE_API_KEY := at_key
    AIRTABLE_BASE_ID := at_base
    AIRTABLE_TABLE := at_table
    LEMLIST_API_KEY := le
    HUBSPOT_API_KEY := hs
    mock := !(!(ph = "" : Bool) && !(dc = "" : Bool) && !(at_key = "" : Bool)
              && !(at_base = "" : Bool) && !(le = "" : Bool) && !(hs = "" : Bool)) }

/-- PhantombusterClient: holds the api key and the mock flag copied from
the Config (lines 34-37). -/
structure PhantombusterClient where
  api_key : String
  mock : Bool
deriving DecidableEq, Repr

/-- PhantombusterClient.__init__ from a Config. -/
def PhantombusterClient.ofConfig (cfg : Config) : PhantombusterClient :=
  { api_key := cfg.PHANTOMBUSTER_API_KEY, mock := cfg.mock }

/-- The two mock commenters of fetch_post_commenters (lines 42-45). -/
def adaRaw : Person :=
  { first_name := some "Ada", last_name := some "Lovelace",
    profile_url := some "https://linkedin.example/ada" }

/-- Second mock commenter. -/
def alanRaw : Person :=
  { first_name := some "Alan", last_name := some "Turing",
    profile_url := some "https://linkedin.example/alan" }

/-- The one mock liker of fetch_post_likers (lines 52-54). -/
def graceRaw : Person :=
  { first_name := some "Grace", last_name := some "Hopper",
    profile_url := some "https://linkedin.example/grace" }

/-- fetch_post_commenters (lines 39-47): fixed mock data in mock mode,
an empty list in real mode (real mode not implemented). -/
def PhantombusterClient.fetch_post_commenters (c : PhantombusterClient) :
    List Person :=
  if c.mock then [adaRaw, alanRaw] else []

/-- fetch_post_likers (lines 49-56). -/
def PhantombusterClient.fetch_post_likers (c : PhantombusterClient) :
    List Person :=
  if c.mock then [graceRaw] else []

/-- trigger_next_phantom (lines 58-63): True in mock mode, False in real
mode. -/
def PhantombusterClient.trigger_next_phantom (c : PhantombusterClient) : Bool :=
  c.mock

/-- DropcontactClient (lines 66-86). -/
structure DropcontactClient where
  api_key : String
  mock : Bool
deriving DecidableEq, Repr

/-- DropcontactClient.__init__ from a Config. -/
def DropcontactClient.ofConfig (cfg : Config) : DropcontactClient :=
  { api_key := cfg.DROPCONTACT_API_KEY, mock := cfg.mock }

/-- Python str.lower, embedded character-wise (the data of this
repository is ASCII, where the two agree). -/
def pyLower (s : String) : String := String.mk (s.data.map Char.toLower)

/-- The mock enrichment email (line 74): lowercased first_name (empty
string when the key is absent) followed by the example.com domain. -/
def mockEmail (p : Person) : String :=
  pyLower (p.first_name.getD "") ++ "@example.com"

/-- The mock enrichment result (lines 74-84). -/
def mockEnrich (p : Person) : Enriched :=
  { full_name := some ((p.first_name.getD "") ++ " " ++ (p.last_name.getD ""))
    first_name := p.first_name
    last_name := p.last_name
    email := some [some (mockEmail p)]
    phone := some ""
    linkedin := p.profile_url
    company := some "Example Ltd"
    website := some "https://example.com" }

/-- DropcontactClient.enrich (lines 71-86): mock data in mock mode, the
empty dict in real mode. -/
def DropcontactClient.enrich (c : DropcontactClient) (p : Person) : Enriched :=
  if c.mock then mockEnrich p else emptyEnriched

/-- AirtableClient (lines 89-117). -/
structure AirtableClient where
  api_key : String
  base_id : String
  table : String
  mock : Bool
deriving DecidableEq, Repr

/-- AirtableClient.__init__ from a Config; the table falls back to
Contacts when cfg.AIRTABLE_TABLE is empty (line 93). -/
def AirtableClient.ofConfig (cfg : Config) : AirtableClient :=
  { api_key := cfg.AIRTABLE_API_KEY
    base_id := cfg.AIRTABLE_BASE_ID
    table := if cfg.AIRTABLE_TABLE = "" then "Contacts" else cfg.AIRTABLE_TABLE
    mock := cfg.mock }

/-- The mock store search (lines 97-101): empty when the email contains
the substring new, otherwise one record with id rec123. -/
def mockLookup (email : String) : List StoreRecord :=
  if strIn "new" email then []
  else [{ id := "rec123", fields := [("Email", some email)] }]

/-- list_records_matching_email (lines 96-103). -/
def AirtableClient.list_records_matching_email (c : AirtableClient)
    (email : String) : List StoreRecord :=
  if c.mock then mockLookup email else []

/-- create_record (lines 105-110): mock mode echoes the fields under id
rec_new; real mode returns the empty dict (embedded as empty record). -/
def AirtableClient.create_record (c : AirtableClient)
    (fields : FieldSet) : StoreRecord :=
  if c.mock then { id := "rec_new", fields := fields }
  else { id := "", fields := [] }

/-- update_record (lines 112-117). -/
def AirtableClient.update_record (c : AirtableClient)
    (record_id : String) (fields : FieldSet) : StoreRecord :=
  if c.mock then { id := record_id, fields := fields }
  else { id := "", fields := [] }

/-- LemlistClient (lines 120-130). -/
structure LemlistClient where
  api_key : String
  mock : Bool
deriving DecidableEq, Repr

/-- LemlistClient.__init__ from a Config. -/
def LemlistClient.ofConfig (cfg : Config) : LemlistClient :=
  { api_key := cfg.LEMLIST_API_KEY, mock := cfg.mock }

/-- add_lead (lines 125-130): True in mock mode, False in real mode. -/
def LemlistClient.add_lead (c : LemlistClient) (_lead : FieldSet) : Bool :=
  c.mock

/-- HubspotClient (lines 133-143). -/
structure HubspotClient where
  api_key : String
  mock : Bool
deriving DecidableEq, Repr

/-- HubspotClient.__init__ from a Config. -/
def HubspotClient.ofConfig (cfg : Config) : HubspotClient :=
  { api_key := cfg.HUBSPOT_API_KEY, mock := cfg.mock }

/-- upsert_contact (lines 138-143): True in mock mode, False in real
mode. -/
def HubspotClient.upsert_contact (c : HubspotClient) (_contact : FieldSet) :
    Bool :=
  c.mock

/-- The clients dict built in main (lines 210-222), as the operations
process_person invokes on it. -/
def clientsOfConfig (cfg : Config) : Clients :=
  { enrich := fun p => DropcontactClient.enrich (DropcontactClient.ofConfig cfg) p
    list_records_matching_email := fun e =>
      AirtableClient.list_records_matching_email (AirtableClient.ofConfig cfg) e
    create_record := fun fs =>
      AirtableClient.create_record (AirtableClient.ofConfig cfg) fs
    update_record := fun i fs =>
      AirtableClient.update_record (AirtableClient.ofConfig cfg) i fs
    add_lead := fun l => LemlistClient.add_lead (LemlistClient.ofConfig cfg) l
    upsert_contact := fun ct =>
      HubspotClient.upsert_contact (HubspotClient.ofConfig cfg) ct }

/-- The configuration produced by an entirely empty environment: every
key is empty, so mock is true. -/
def mockConfig : Config := load_from_env (fun _ => none)

/-- The clients as constructed when no credential is set: every adapter
in mock mode. -/
def mockClients : Clients := clientsOfConfig mockConfig

/-- An event of one run cycle: the start of a process_person invocation
for a given raw record, a downstream call made inside it, or the final
trigger_next_phantom call. -/
inductive Ev where
  | procStart (p : Person)
  | act (c : Call)
  | triggerNext
deriving DecidableEq, Repr

/-- Processing loop over a batch (lines 232-233 and 237-238): each
record is handed to process_person in order; its downstream calls follow
its start event. -/
def processBatch (cl : Clients) : List Person → List Ev
  | [] => []
  | p :: rest =>
      (Ev.procStart p :: (processPerson cl p).map Ev.act)
        ++ processBatch cl rest

/-- run_cycle (lines 224-243) as a trace: fetch commenters, process
them, fetch likers, process them, then one trigger_next_phantom call.
The fetched batches are the arguments (in mock mode they are the fixed
lists of the Phantombuster client); the 30 second wait has no trace
effect. -/
def runCycle (cl : Clients) (commenters likers : List Person) : List Ev :=
  processBatch cl commenters ++ processBatch cl likers ++ [Ev.triggerNext]

/-- Is this event the start of a process_person invocation. -/
def isProcStart : Ev → Bool
  | Ev.procStart _ => true
  | _ => false

/-- Is this event the trigger_next_phantom call. -/
def isTrigger : Ev → Bool
  | Ev.triggerNext => true
  | _ => false

/-!
Helper lemmas shared by the claim theorems, plus concrete instances used
by the witnesses.
-/

/-- When the email is resolvable the trace is the store phase followed by
the Lemlist and HubSpot calls. -/
theorem processEnriched_resolved (lookup : String → List StoreRecord) (e : Enriched)
    (email : String) (he : resolvedEmail e = some email) :
    processEnriched lookup e =
      storeCalls lookup e email
        ++ [Call.add_lead (leadFields e email),
            Call.upsert_contact (contactFields e email)] := by
  unfold processEnriched
  rw [he]

/-- Empty store search result: search call then create call. -/
theorem storeCalls_nil (lookup : String → List StoreRecord) (e : Enriched) (email : String)
    (hl : lookup email = []) :
    storeCalls lookup e email =
      [Call.list_records_matching_email email,
       Call.create_record (createFields e email)] := by
  unfold storeCalls
  rw [hl]

/-- Non-empty store search result: search call then update of the first
match. -/
theorem storeCalls_first (lookup : String → List StoreRecord) (e : Enriched) (email : String)
    (r : StoreRecord) (rest : List StoreRecord) (hl : lookup email = r :: rest) :
    storeCalls lookup e email =
      [Call.list_records_matching_email email,
       Call.update_record r.id (updateFields e email)] := by
  unfold storeCalls
  rw [hl]

/-- The mock decision of load_from_env, as a proposition: mock is false
exactly when all six checked credentials are non-empty. -/
theorem load_mock_iff (env : String → Option String) :
    (load_from_env env).mock = false ↔
      (getenvD env "PHANTOMBUSTER_API_KEY" "" ≠ "" ∧
       getenvD env "DROPCONTACT_API_KEY" "" ≠ "" ∧
       getenvD env "AIRTABLE_API_KEY" "" ≠ "" ∧
       getenvD env "AIRTABLE_BASE_ID" "" ≠ "" ∧
       getenvD env "LEMLIST_API_KEY" "" ≠ "" ∧
       getenvD env "HUBSPOT_API_KEY" "" ≠ "") := by
  simp [load_from_env, and_assoc]

/-- A string with the example.com mail domain appended is never empty. -/
theorem append_domain_ne_empty (s : String) : s ++ "@example.com" ≠ "" := by
  intro hc
  have h2 : (s ++ "@example.com").data = String.data "" := congrArg String.data hc
  rw [String.data_append] at h2
  cases hd : s.data with
  | nil => rw [hd] at h2; exact absurd h2 (by decide)
  | cons a l => rw [hd] at h2; simp at h2

/-- Clients whose enrichment yields the empty dict, as real-mode
Dropcontact does; used to exhibit the unresolvable-identity skip. -/
def noEmailClients : Clients :=
  { mockClients with enrich := fun _ => emptyEnriched }

/-- An enrichment result whose first email entry maps the email key to
the empty string. -/
def blankEmailEnriched : Enriched :=
  { emptyEnriched with email := some [some ""] }

/-- Clients whose enrichment yields blankEmailEnriched. -/
def blankEmailClients : Clients :=
  { mockClients with enrich := fun _ => blankEmailEnriched }

/-- Clients identical to the mock ones on enrich and on the store
search, but whose downstream writes all return falsy or empty values. -/
def failingClients : Clients :=
  { mockClients with
    add_lead := fun _ => false
    upsert_contact := fun _ => false
    create_record := fun _ => { id := "", fields := [] }
    update_record := fun _ _ => { id := "", fields := [] } }

/-- A commenter whose mock enrichment email contains the substring new,
so the mock store search returns no match. -/
def newtonRaw : Person :=
  { first_name := some "Newton", last_name := some "Raphson",
    profile_url := some "https://linkedin.example/newton" }

/-- The Phantombuster client constructed from the credential-free
configuration. -/
def pbMock : PhantombusterClient := PhantombusterClient.ofConfig mockConfig

/-- The trace of one mock run cycle: the fetched commenters batch, then
the fetched likers batch, then the follow-up trigger. -/
def mockCycle : List Ev :=
  runCycle mockClients pbMock.fetch_post_commenters pbMock.fetch_post_likers

/-!
Claim theorems.
-/

/-- C1: when the enrichment result has no email list or an empty one, no
primary email can be extracted, and process_person performs zero
downstream calls — no store search, create, update, add_lead or
upsert_contact — and the run continues with the next record: the record
only contributes its start event to the cycle trace. -/
theorem claim_C1 (cl : Clients) (p : Person)
    (h : (cl.enrich p).email = none ∨ (cl.enrich p).email = some []) :
    processPerson cl p = [] ∧
    ∀ (rest likers : List Person),
      runCycle cl (p :: rest) likers = Ev.procStart p :: runCycle cl rest likers := by
  have hre : resolvedEmail (cl.enrich p) = none := by
    unfold resolvedEmail extract_email
    rcases h with h | h <;> rw [h]
  have hpp : processPerson cl p = [] := by
    unfold processPerson processEnriched
    rw [hre]
  refine ⟨hpp, fun rest likers => ?_⟩
  simp [runCycle, processBatch, hpp]

/-- C1 witness: a client whose enrichment returns the empty dict skips
the Ada record with an empty trace, and the cycle goes on. -/
theorem claim_C1_witness :
    processPerson noEmailClients adaRaw = [] ∧
    runCycle noEmailClients [adaRaw] [] =
      Ev.procStart adaRaw :: runCycle noEmailClients [] [] :=
  ⟨(claim_C1 noEmailClients adaRaw (Or.inl rfl)).1,
   (claim_C1 noEmailClients adaRaw (Or.inl rfl)).2 [] []⟩

/-- C2: a resolvable email with an empty store search gives exactly one
create_record call and zero update_record calls; the created field set
has the key Name bound to the enriched full name, with exactly the keys
Name, Account, Company website, Email, Phone, LinkedIn; and in the mock
store the empty-search branch is taken exactly when the email contains
the substring new. -/
theorem claim_C2 (cl : Clients) (p : Person) (email : String)
    (he : resolvedEmail (cl.enrich p) = some email)
    (hl : cl.list_records_matching_email email = []) :
    countCreate (processPerson cl p) = 1 ∧
    countUpdate (processPerson cl p) = 0 ∧
    Call.create_record (createFields (cl.enrich p) email) ∈ processPerson cl p ∧
    getField (createFields (cl.enrich p) email) "Name" = some (cl.enrich p).full_name ∧
    fieldKeys (createFields (cl.enrich p) email) =
      ["Name", "Account", "Company website", "Email", "Phone", "LinkedIn"] ∧
    ∀ s : String, mockLookup s = [] ↔ strIn "new" s = true := by
  have ht : processPerson cl p =
      [Call.list_records_matching_email email,
       Call.create_record (createFields (cl.enrich p) email),
       Call.add_lead (leadFields (cl.enrich p) email),
       Call.upsert_contact (contactFields (cl.enrich p) email)] := by
    unfold processPerson
    rw [processEnriched_resolved _ _ _ he, storeCalls_nil _ _ _ hl]
    rfl
  rw [ht]
  refine ⟨rfl, rfl, by simp, rfl, rfl, fun s => ?_⟩
  unfold mockLookup
  cases hs : strIn "new" s <;> simp [hs]

/-- C2 witness: the Newton commenter enriches to an email containing
new, the mock search is empty, and exactly one create call occurs. -/
theorem claim_C2_witness :
    resolvedEmail (mockClients.enrich newtonRaw) = some "newton@example.com" ∧
    mockClients.list_records_matching_email "newton@example.com" = [] ∧
    countCreate (processPerson mockClients newtonRaw) = 1 ∧
    countUpdate (processPerson mockClients newtonRaw) = 0 :=
  ⟨by decide, by decide,
   (claim_C2 mockClients newtonRaw "newton@example.com" (by decide) (by decide)).1,
   (claim_C2 mockClients newtonRaw "newton@example.com" (by decide) (by decide)).2.1⟩

/-- C3: a resolvable email whose store search returns at least one match
gives exactly one update_record call and zero create_record calls; the
update targets the id of the first match, and its field set has exactly
the keys Email, Phone, LinkedIn, Account, Company website — the key Name
is absent. -/
theorem claim_C3 (cl : Clients) (p : Person) (email : String)
    (r : StoreRecord) (rest : List StoreRecord)
    (he : resolvedEmail (cl.enrich p) = some email)
    (hl : cl.list_records_matching_email email = r :: rest) :
    countUpdate (processPerson cl p) = 1 ∧
    countCreate (processPerson cl p) = 0 ∧
    Call.update_record r.id (updateFields (cl.enrich p) email) ∈ processPerson cl p ∧
    fieldKeys (updateFields (cl.enrich p) email) =
      ["Email", "Phone", "LinkedIn", "Account", "Company website"] ∧
    getField (updateFields (cl.enrich p) email) "Name" = none := by
  have ht : processPerson cl p =
      [Call.list_records_matching_email email,
       Call.update_record r.id (updateFields (cl.enrich p) email),
       Call.add_lead (leadFields (cl.enrich p) email),
       Call.upsert_contact (contactFields (cl.enrich p) email)] := by
    unfold processPerson
    rw [processEnriched_resolved _ _ _ he, storeCalls_first _ _ _ _ _ hl]
    rfl
  rw [ht]
  exact ⟨rfl, rfl, by simp, rfl, rfl⟩

/-- C3 witness: Ada matches the rec123 mock record, producing one update
of rec123 and no create. -/
theorem claim_C3_witness :
    resolvedEmail (mockClients.enrich adaRaw) = some "ada@example.com" ∧
    mockClients.list_records_matching_email "ada@example.com" =
      [{ id := "rec123", fields := [("Email", some "ada@example.com")] }] ∧
    countUpdate (processPerson mockClients adaRaw) = 1 ∧
    countCreate (processPerson mockClients adaRaw) = 0 :=
  ⟨by decide, by decide,
   (claim_C3 mockClients adaRaw "ada@example.com"
      { id := "rec123", fields := [("Email", some "ada@example.com")] } []
      (by decide) (by decide)).1,
   (claim_C3 mockClients adaRaw "ada@example.com"
      { id := "rec123", fields := [("Email", some "ada@example.com")] } []
      (by decide) (by decide)).2.1⟩

/-- C4: with a resolvable email, add_lead and upsert_contact each occur
exactly once, whichever store branch was taken; and the trace does not
depend on the values returned by the store, Lemlist or HubSpot calls:
any clients agreeing on enrich and on the store search produce the same
trace, so a falsy downstream result never suppresses the other calls. -/
theorem claim_C4 (cl cl2 : Clients) (p : Person) (email : String)
    (he : resolvedEmail (cl.enrich p) = some email)
    (h1 : cl2.enrich = cl.enrich)
    (h2 : cl2.list_records_matching_email = cl.list_records_matching_email) :
    countAddLead (processPerson cl p) = 1 ∧
    countUpsert (processPerson cl p) = 1 ∧
    processPerson cl2 p = processPerson cl p := by
  refine ⟨?_, ?_, ?_⟩ <;>
    [skip; skip; · unfold processPerson; rw [h1, h2]]
  all_goals
    unfold processPerson
    rw [processEnriched_resolved _ _ _ he]
    unfold storeCalls
    cases hc : cl.list_records_matching_email email <;> rfl

/-- C4 witness: clients whose writes all return falsy values produce the
same Ada trace as the mock clients, with one add_lead and one
upsert_contact. -/
theorem claim_C4_witness :
    resolvedEmail (mockClients.enrich adaRaw) = some "ada@example.com" ∧
    countAddLead (processPerson mockClients adaRaw) = 1 ∧
    countUpsert (processPerson mockClients adaRaw) = 1 ∧
    processPerson failingClients adaRaw = processPerson mockClients adaRaw :=
  ⟨by decide,
   (claim_C4 mockClients failingClients adaRaw "ada@example.com" (by decide) rfl rfl).1,
   (claim_C4 mockClients failingClients adaRaw "ada@example.com" (by decide) rfl rfl).2.1,
   (claim_C4 mockClients failingClients adaRaw "ada@example.com" (by decide) rfl rfl).2.2⟩

/-- C5: the store search is a pure function of the email, so running
process_person twice on the same commenter whose email already matches a
store record concatenates two identical traces: two update_record calls
and zero create_record calls — a repeated email never produces a
duplicate create. -/
theorem claim_C5 (cl : Clients) (p : Person) (email : String)
    (r : StoreRecord) (rest : List StoreRecord)
    (he : resolvedEmail (cl.enrich p) = some email)
    (hl : cl.list_records_matching_email email = r :: rest) :
    countUpdate (processPerson cl p ++ processPerson cl p) = 2 ∧
    countCreate (processPerson cl p ++ processPerson cl p) = 0 := by
  have ht : processPerson cl p =
      [Call.list_records_matching_email email,
       Call.update_record r.id (updateFields (cl.enrich p) email),
       Call.add_lead (leadFields (cl.enrich p) email),
       Call.upsert_contact (contactFields (cl.enrich p) email)] := by
    unfold processPerson
    rw [processEnriched_resolved _ _ _ he, storeCalls_first _ _ _ _ _ hl]
    rfl
  rw [ht]
  exact ⟨rfl, rfl⟩

/-- C5 witness: two successive runs on Ada give two updates and no
create. -/
theorem claim_C5_witness :
    countUpdate (processPerson mockClients adaRaw ++ processPerson mockClients adaRaw) = 2 ∧
    countCreate (processPerson mockClients adaRaw ++ processPerson mockClients adaRaw) = 0 :=
  claim_C5 mockClients adaRaw "ada@example.com"
    { id := "rec123", fields := [("Email", some "ada@example.com")] } []
    (by decide) (by decide)

/-- C6: in mock mode the Ada commenter enriches to the single email
ada@example.com, the store search returns exactly the rec123 match, and
the trace is one search, one update of rec123, one add_lead and one
upsert_contact, in that order. -/
theorem claim_C6 :
    (mockClients.enrich adaRaw).email = some [some "ada@example.com"] ∧
    resolvedEmail (mockClients.enrich adaRaw) = some "ada@example.com" ∧
    mockClients.list_records_matching_email "ada@example.com" =
      [{ id := "rec123", fields := [("Email", some "ada@example.com")] }] ∧
    processPerson mockClients adaRaw =
      [Call.list_records_matching_email "ada@example.com",
       Call.update_record "rec123" (updateFields (mockEnrich adaRaw) "ada@example.com"),
       Call.add_lead (leadFields (mockEnrich adaRaw) "ada@example.com"),
       Call.upsert_contact (contactFields (mockEnrich adaRaw) "ada@example.com")] ∧
    countUpdate (processPerson mockClients adaRaw) = 1 ∧
    countCreate (processPerson mockClients adaRaw) = 0 ∧
    countAddLead (processPerson mockClients adaRaw) = 1 ∧
    countUpsert (processPerson mockClients adaRaw) = 1 :=
  ⟨by decide, by decide, by decide, by decide, by decide, by decide, by decide, by decide⟩

/-- C7: one mock cycle over 2 commenters and 1 liker starts exactly
three process_person invocations — Ada and Alan (the commenters, in
order) before Grace (the liker) — and the trigger_next_phantom event
occurs exactly once, as the last event of the cycle. -/
theorem claim_C7 :
    pbMock.fetch_post_commenters.length = 2 ∧
    pbMock.fetch_post_likers.length = 1 ∧
    mockCycle.filter isProcStart =
      [Ev.procStart adaRaw, Ev.procStart alanRaw, Ev.procStart graceRaw] ∧
    mockCycle.countP isTrigger = 1 ∧
    mockCycle.getLast? = some Ev.triggerNext :=
  ⟨by decide, by decide, by decide, by decide, by decide⟩

/-- C8: when any of the six checked credentials is absent or empty,
load_from_env still returns a configuration (startup never fails), its
mock flag is true, all five adapters constructed from it carry mock =
true and their operations return the fixed sample data; and for every
environment, mock is false exactly when all six values are non-empty. -/
theorem claim_C8 (env : String → Option String)
    (h : getenvD env "PHANTOMBUSTER_API_KEY" "" = "" ∨
         getenvD env "DROPCONTACT_API_KEY" "" = "" ∨
         getenvD env "AIRTABLE_API_KEY" "" = "" ∨
         getenvD env "AIRTABLE_BASE_ID" "" = "" ∨
         getenvD env "LEMLIST_API_KEY" "" = "" ∨
         getenvD env "HUBSPOT_API_KEY" "" = "") :
    (load_from_env env).mock = true ∧
    (PhantombusterClient.ofConfig (load_from_env env)).mock = true ∧
    (DropcontactClient.ofConfig (load_from_env env)).mock = true ∧
    (AirtableClient.ofConfig (load_from_env env)).mock = true ∧
    (LemlistClient.ofConfig (load_from_env env)).mock = true ∧
    (HubspotClient.ofConfig (load_from_env env)).mock = true ∧
    (PhantombusterClient.ofConfig (load_from_env env)).fetch_post_commenters =
      [adaRaw, alanRaw] ∧
    (PhantombusterClient.ofConfig (load_from_env env)).fetch_post_likers = [graceRaw] ∧
    (PhantombusterClient.ofConfig (load_from_env env)).trigger_next_phantom = true ∧
    (∀ p, (DropcontactClient.ofConfig (load_from_env env)).enrich p = mockEnrich p) ∧
    (∀ s, (AirtableClient.ofConfig (load_from_env env)).list_records_matching_email s
        = mockLookup s) ∧
    (∀ l, (LemlistClient.ofConfig (load_from_env env)).add_lead l = true) ∧
    (∀ c, (HubspotClient.ofConfig (load_from_env env)).upsert_contact c = true) ∧
    (∀ env2 : String → Option String, (load_from_env env2).mock = false ↔
       (getenvD env2 "PHANTOMBUSTER_API_KEY" "" ≠ "" ∧
        getenvD env2 "DROPCONTACT_API_KEY" "" ≠ "" ∧
        getenvD env2 "AIRTABLE_API_KEY" "" ≠ "" ∧
        getenvD env2 "AIRTABLE_BASE_ID" "" ≠ "" ∧
        getenvD env2 "LEMLIST_API_KEY" "" ≠ "" ∧
        getenvD env2 "HUBSPOT_API_KEY" "" ≠ "")) := by
  have hm : (load_from_env env).mock = true := by
    by_contra hb
    rw [Bool.not_eq_true] at hb
    have hc := (load_mock_iff env).mp hb
    rcases h with h | h | h | h | h | h
    · exact hc.1 h
    · exact hc.2.1 h
    · exact hc.2.2.1 h
    · exact hc.2.2.2.1 h
    · exact hc.2.2.2.2.1 h
    · exact hc.2.2.2.2.2 h
  refine ⟨hm, hm, hm, hm, hm, hm, ?_, ?_, ?_, ?_, ?_, ?_, ?_, load_mock_iff⟩
  · simp [PhantombusterClient.fetch_post_commenters, PhantombusterClient.ofConfig, hm]
  · simp [PhantombusterClient.fetch_post_likers, PhantombusterClient.ofConfig, hm]
  · simp [PhantombusterClient.trigger_next_phantom, PhantombusterClient.ofConfig, hm]
  · intro p
    simp [DropcontactClient.enrich, DropcontactClient.ofConfig, hm]
  · intro s
    simp [AirtableClient.list_records_matching_email, AirtableClient.ofConfig, hm]
  · intro l
    simp [LemlistClient.add_lead, LemlistClient.ofConfig, hm]
  · intro c
    simp [HubspotClient.upsert_contact, HubspotClient.ofConfig, hm]

/-- C8 witness: the empty environment misses every credential and forces
mock mode with the fixed sample commenters. -/
theorem claim_C8_witness :
    getenvD (fun _ => none) "PHANTOMBUSTER_API_KEY" "" = "" ∧
    (load_from_env (fun _ => none)).mock = true ∧
    (PhantombusterClient.ofConfig (load_from_env (fun _ => none))).fetch_post_commenters =
      [adaRaw, alanRaw] :=
  ⟨rfl,
   (claim_C8 (fun _ => none) (Or.inl rfl)).1,
   (claim_C8 (fun _ => none) (Or.inl rfl)).2.2.2.2.2.2.1⟩

/-- C9: the mock enrichment of any person — even with a missing or empty
first name — carries exactly one email entry, the lowercased first name
followed by the example.com domain; this string is never empty, so the
email always resolves and the skip branch of process_person is
unreachable when enrichment is the mock one: the trace is never empty. -/
theorem claim_C9 (cl : Clients) (p : Person) (hcl : cl.enrich = mockEnrich) :
    (mockEnrich p).email = some [some (mockEmail p)] ∧
    mockEmail p = pyLower (p.first_name.getD "") ++ "@example.com" ∧
    mockEmail p ≠ "" ∧
    resolvedEmail (mockEnrich p) = some (mockEmail p) ∧
    processPerson cl p ≠ [] := by
  have hne : mockEmail p ≠ "" := append_domain_ne_empty _
  have hres : resolvedEmail (mockEnrich p) = some (mockEmail p) := by
    show (if mockEmail p = "" then none else some (mockEmail p)) = some (mockEmail p)
    rw [if_neg hne]
  refine ⟨rfl, rfl, hne, hres, ?_⟩
  unfold processPerson
  rw [hcl, processEnriched_resolved _ _ _ hres]
  unfold storeCalls
  cases hc : cl.list_records_matching_email (mockEmail p) <;> simp

/-- C9 witness: the mock clients use the mock enrichment, Ada resolves,
and her trace is non-empty. -/
theorem claim_C9_witness :
    mockClients.enrich = mockEnrich ∧
    resolvedEmail (mockEnrich adaRaw) = some (mockEmail adaRaw) ∧
    processPerson mockClients adaRaw ≠ [] :=
  ⟨funext fun _ => rfl,
   (claim_C9 mockClients adaRaw (funext fun _ => rfl)).2.2.2.1,
   (claim_C9 mockClients adaRaw (funext fun _ => rfl)).2.2.2.2⟩

/-- C10: the email extraction is total over every falsy shape — email
key absent, empty list, first entry without an email key, or first entry
with an empty string — and in all four cases the email does not resolve,
so any process_person run whose enrichment produced such a result makes
zero downstream calls. -/
theorem claim_C10 (e : Enriched)
    (h : e.email = none ∨ e.email = some [] ∨
         (∃ rest, e.email = some (none :: rest)) ∨
         (∃ rest, e.email = some (some "" :: rest))) :
    resolvedEmail e = none ∧
    ∀ (cl : Clients) (p : Person), cl.enrich p = e → processPerson cl p = [] := by
  have hre : resolvedEmail e = none := by
    unfold resolvedEmail extract_email
    rcases h with h | h | ⟨rest, h⟩ | ⟨rest, h⟩ <;> (rw [h]; try rfl)
  refine ⟨hre, fun cl p hep => ?_⟩
  unfold processPerson processEnriched
  rw [hep, hre]

/-- C10 witness: a first entry binding the email key to the empty string
does not resolve and yields an empty trace. -/
theorem claim_C10_witness :
    blankEmailEnriched.email = some [some ""] ∧
    resolvedEmail blankEmailEnriched = none ∧
    processPerson blankEmailClients adaRaw = [] :=
  ⟨rfl,
   (claim_C10 blankEmailEnriched (Or.inr (Or.inr (Or.inr ⟨[], rfl⟩)))).1,
   (claim_C10 blankEmailEnriched (Or.inr (Or.inr (Or.inr ⟨[], rfl⟩)))).2
     blankEmailClients adaRaw rfl⟩
